import Mathlib

/-!
Verification of the ephemeral-disk-attachment and snapshot-coalesce engine
(`nova/virt/xenapi/vm_utils.py`).

This file is a shallow embedding of the functions the claims are about:

* `ImageType` with its `to_string` / `from_string` encodings, transcribed
  faithfully, including the attribute/name lookups that do not resolve at
  runtime (`VHD_STR`, `VHD`, and the bare name `image_type` inside
  `from_string`), which are modelled as `attributeError` / `nameError`
  results;
* `vbd_unplug_with_retry`, driven by a finite list of mock responses from
  `VBD.unplug` (one response per attempt; an exhausted list means the mock
  cannot decide the unbounded loop and is reported as `exhausted`);
* `with_vdi_attached_here`, as an interpreter over a mock `AttachEnv`
  producing an event trace (plug, caller-operation call, unplug attempts,
  sleeps, destroy) together with an `Outcome` (normal value, raised error,
  or hang when the unbounded unplug retry never terminates on the mock);
* `_stream_disk` / `_write_partition` as pure functions returning the
  partition call and write offset performed on the device;
* `wait_for_vhd_coalesce`, driven by a list of current-parent readings
  (one per poll of the storage repository);
* `_fetch_image_glance_disk`, `_fetch_image_objectstore`,
  `_fetch_image_glance` and the `fetch_image` dispatch, over a mock
  `FetchEnv`;
* `_determine_is_pv_glance`, with the pygrub probe outcome supplied by the
  mock;
* `ignore_failure` over an `Except` computation result.

Remote sessions, logging and the actual byte I/O are replaced by the mock
environments; the control flow, the pattern matching on remote failure
codes, and all computed numbers and strings follow the Python source.
-/

namespace VmUtils

/-! ## Basic constants (module-level constants of the source) -/

def SECTOR_SIZE : Nat := 512

def MBR_SIZE_SECTORS : Nat := 63

def MBR_SIZE_BYTES : Nat := MBR_SIZE_SECTORS * SECTOR_SIZE

/-! ## Python exceptions and results -/

/-- The exception kinds raised by the modelled code: `XenAPI.Failure`
(carrying a structured details list), `StorageError`, generic
`exception.Error`, I/O errors, and the interpreter-level `NameError` /
`AttributeError` produced by unresolvable names in the source. -/
inductive PyErr where
  | xenFailure (details : List String)
  | storageError (msg : String)
  | genError (msg : String)
  | ioError (msg : String)
  | nameError (name : String)
  | attributeError (name : String)
  | indexError (msg : String)
deriving DecidableEq

/-- True exactly for `XenAPI.Failure`, the class matched by
`except cls.XenAPI.Failure` clauses. -/
def PyErr.isXenFailure : PyErr → Bool
  | .xenFailure _ => true
  | _ => false

/-- True for the exception classes caught by
`except (cls.XenAPI.Failure, IOError, OSError)` in
`_fetch_image_glance_disk`. -/
def PyErr.caughtByFetch : PyErr → Bool
  | .xenFailure _ => true
  | .ioError _ => true
  | _ => false

/-- Result of evaluating a Python expression: a value or a raised
exception. -/
inductive PyResult (α : Type) where
  | ok (a : α)
  | exn (e : PyErr)
deriving DecidableEq

/-- Result of running a scoped operation whose cleanup loop may spin
forever on the mock: a value, a raised error, or a hang (the unbounded
unplug retry never returned within the mock's responses). -/
inductive Outcome (α : Type) where
  | ok (a : α)
  | error (e : PyErr)
  | hang
deriving DecidableEq

/-- Inject the result of a `try` body into an `Outcome`. -/
def liftExcept {α : Type} : Except PyErr α → Outcome α
  | .ok a => .ok a
  | .error e => .error e

/-! ## ImageType -/

/-- The closed enumeration of image types (numeric values 0..4 in the
source). -/
inductive ImageType where
  | KERNEL
  | RAMDISK
  | DISK
  | DISK_RAW
  | DISK_VHD
deriving DecidableEq

/-- The numeric encoding of the enumeration (the class attribute values). -/
def ImageType.toNum : ImageType → Nat
  | .KERNEL => 0
  | .RAMDISK => 1
  | .DISK => 2
  | .DISK_RAW => 3
  | .DISK_VHD => 4

/-- Model of `ImageType.to_string`, transcribed from the source.  The branch for
`DISK_VHD` evaluates `ImageType.VHD_STR`, an attribute that is not defined
on the class, so it raises `AttributeError`; an unmatched input would fall
off the end returning `None` (unreachable for enumeration members). -/
def ImageType.to_string : ImageType → PyResult (Option String)
  | .KERNEL => .ok (some "kernel")
  | .RAMDISK => .ok (some "ramdisk")
  | .DISK => .ok (some "os")
  | .DISK_RAW => .ok (some "os_raw")
  | .DISK_VHD => .exn (.attributeError "VHD_STR")

/-- Model of `ImageType.from_string`, transcribed from the source.  Only the first
branch tests the parameter `image_type_str`; every later branch reads the
unbound name `image_type`, so any input other than `"kernel"` raises
`NameError` before any further comparison. -/
def ImageType.from_string (image_type_str : String) : PyResult (Option ImageType) :=
  if image_type_str = "kernel" then .ok (some .KERNEL)
  else .exn (.nameError "image_type")

/-- True for the kernel/ramdisk artifact kinds
(`image_type in (ImageType.KERNEL, ImageType.RAMDISK)`). -/
def kernel_or_ramdisk : ImageType → Bool
  | ImageType.KERNEL => true
  | ImageType.RAMDISK => true
  | _ => false

/-! ## Event traces of the scoped attachment -/

/-- Observable calls made by the scoped attachment: the `VBD.plug` call,
the invocation of the caller operation with a device name, each
`VBD.unplug` attempt, each 1 second retry sleep, and the `VBD.destroy`
call. -/
inductive Event where
  | plugCall
  | opCall (dev : String)
  | unplugAttempt
  | sleep1
  | destroyCall
deriving DecidableEq

/-- Number of `VBD.destroy` calls in a trace. -/
def countDestroy : List Event → Nat
  | [] => 0
  | Event.destroyCall :: t => countDestroy t + 1
  | _ :: t => countDestroy t

/-- Number of `VBD.unplug` attempts in a trace. -/
def countUnplug : List Event → Nat
  | [] => 0
  | Event.unplugAttempt :: t => countUnplug t + 1
  | _ :: t => countUnplug t

/-- Number of one-second retry sleeps in a trace. -/
def countSleep : List Event → Nat
  | [] => 0
  | Event.sleep1 :: t => countSleep t + 1
  | _ :: t => countSleep t

/-- Number of caller-operation invocations in a trace. -/
def countOp : List Event → Nat
  | [] => 0
  | Event.opCall _ :: t => countOp t + 1
  | _ :: t => countOp t

/-- The last event of a trace, if any. -/
def lastEvent? : List Event → Option Event
  | [] => none
  | [e] => some e
  | _ :: t => lastEvent? t

/-! ## vbd_unplug_with_retry -/

/-- One mock response of `VBD.unplug`: success, or a raised
`XenAPI.Failure` with the given details list. -/
inductive UnplugResponse where
  | ok
  | failure (details : List String)
deriving DecidableEq

/-- How `vbd_unplug_with_retry` returned: first-time (or eventual) success,
`DEVICE_ALREADY_DETACHED` treated as success, any other remote failure
logged and swallowed, or `exhausted` when the mock response list ran out
while the loop was still retrying (the real loop has no attempt ceiling). -/
inductive UnplugResult where
  | success
  | alreadyDetached
  | ignoredFailure (details : List String)
  | exhausted
deriving DecidableEq

/-- Model of `vbd_unplug_with_retry`, transcribed from the source: loop forever;
on success return; on a failure whose first detail is
`DEVICE_DETACH_REJECTED` sleep 1 second and retry; on
`DEVICE_ALREADY_DETACHED` return (successful eventually); on any other
failure log and return.  The loop consumes one mock response per attempt
and returns the trace of attempts and sleeps. -/
def vbd_unplug_with_retry : List UnplugResponse → List Event × UnplugResult
  | [] => ([], UnplugResult.exhausted)
  | UnplugResponse.ok :: _ => ([Event.unplugAttempt], UnplugResult.success)
  | UnplugResponse.failure ds :: rest =>
    if ds.head? = some "DEVICE_DETACH_REJECTED" then
      let r := vbd_unplug_with_retry rest
      (Event.unplugAttempt :: Event.sleep1 :: r.1, r.2)
    else if ds.head? = some "DEVICE_ALREADY_DETACHED" then
      ([Event.unplugAttempt], UnplugResult.alreadyDetached)
    else
      ([Event.unplugAttempt], UnplugResult.ignoredFailure ds)

/-! ## with_vdi_attached_here -/

/-- Mock environment for one scoped attachment.  `plug_failure` is the
`XenAPI.Failure` raised by `VBD.plug` (if any); `orig_dev` is the device
name `VBD.get_device` reports after a successful plug; `should_remap` and
`remap_new` model `FLAGS.xenapi_remap_vbd_dev` and
`FLAGS.xenapi_remap_vbd_dev_prefix`; `device_appears_at` is the poll index
at which the device node appears under `/dev` (`none` = never), checked
against `wait_timeout` (`FLAGS.block_device_creation_timeout`);
`unplug_responses` drives `vbd_unplug_with_retry`; `destroy_failure` is
the `XenAPI.Failure` raised by `VBD.destroy` (if any). -/
structure AttachEnv where
  plug_failure : Option (List String)
  orig_dev : String
  should_remap : Bool
  remap_new : String
  device_appears_at : Option Nat
  wait_timeout : Nat
  unplug_responses : List UnplugResponse
  destroy_failure : Option (List String)
deriving DecidableEq

/-- Model of `remap_vbd_dev`: when remapping is enabled, substitute the configured
replacement for `xvd` in the reported device name. -/
def remap_vbd_dev (should_remap : Bool) (remap_new : String) (dev : String) : String :=
  if should_remap then dev.replace "xvd" remap_new else dev

/-- Predicate for `_wait_for_device`: it succeeds iff the device node appears at some poll
index strictly below the configured timeout count. -/
def wait_for_device_ok (appears_at : Option Nat) (timeout : Nat) : Bool :=
  match appears_at with
  | some k => decide (k < timeout)
  | none => false

/-- The `try` body of `with_vdi_attached_here` after the VBD record was
created: plug the VBD, read and remap the device name, wait for the
device node (skipped for the placeholder name `autodetect`), then invoke
the caller operation on the device name. -/
def attach_body {α : Type} (env : AttachEnv) (f : String → Except PyErr α) :
    List Event × Except PyErr α :=
  match env.plug_failure with
  | some ds => ([Event.plugCall], .error (.xenFailure ds))
  | none =>
    let dev := remap_vbd_dev env.should_remap env.remap_new env.orig_dev
    if dev = "autodetect" then
      ([Event.plugCall, Event.opCall dev], f dev)
    else if wait_for_device_ok env.device_appears_at env.wait_timeout then
      ([Event.plugCall, Event.opCall dev], f dev)
    else
      ([Event.plugCall],
        .error (.storageError "Timeout waiting for device to be created"))

/-- The `VBD.destroy` call of the cleanup path: succeeds, or raises the
mock `XenAPI.Failure`. -/
def destroy_call (env : AttachEnv) : Except PyErr Unit :=
  match env.destroy_failure with
  | some ds => .error (.xenFailure ds)
  | none => .ok ()

/-- Model of `ignore_failure`: run the computation; return its value on success,
return `None` when it raises `XenAPI.Failure` (logged, swallowed), and let
any other exception propagate. -/
def ignore_failure {α : Type} (r : Except PyErr α) : Except PyErr (Option α) :=
  match r with
  | .ok a => .ok (some a)
  | .error (.xenFailure _) => .ok none
  | .error e => .error e

/-- Model of `with_vdi_attached_here`, for an invocation in which the VBD record
was created.  Runs the `try` body, then the `finally` block: unplug with
retry, then destroy the VBD through `ignore_failure`.  If the unbounded
unplug retry never returns on the mock responses, the whole call hangs and
no destroy is issued; otherwise the destroy call is appended to the trace
and, because `ignore_failure` swallows the `XenAPI.Failure` a destroy can
raise, the body's result (value or error) is what the caller sees. -/
def with_vdi_attached_here {α : Type} (env : AttachEnv)
    (f : String → Except PyErr α) : List Event × Outcome α :=
  let b := attach_body env f
  let u := vbd_unplug_with_retry env.unplug_responses
  match u.2 with
  | UnplugResult.exhausted => (b.1 ++ u.1, Outcome.hang)
  | _ =>
    match ignore_failure (destroy_call env) with
    | .error e => (b.1 ++ u.1 ++ [Event.destroyCall], Outcome.error e)
    | .ok _ => (b.1 ++ u.1 ++ [Event.destroyCall], liftExcept b.2)

/-! ## _stream_disk and _write_partition -/

/-- Model of `_write_partition`: the single primary MSDOS partition written for a
legacy partitioned image, as its (first sector, last sector) arguments. -/
def _write_partition (virtual_size : Nat) : Nat × Nat :=
  (MBR_SIZE_SECTORS, MBR_SIZE_SECTORS + virtual_size / SECTOR_SIZE - 1)

/-- What `_stream_disk` did to the device: the partition call (if any),
the seek offset for the image bytes, and the bytes written (the chunks of
the source stream, concatenated). -/
structure StreamResult where
  partition : Option (Nat × Nat)
  offset : Nat
  written : List Nat
deriving DecidableEq

/-- Model of `_stream_disk`, transcribed from the source: offset 0; if the image
type is `DISK`, the offset becomes `MBR_SIZE_BYTES` and
`_write_partition` is invoked; then the stream is copied to the device
from the offset. -/
def _stream_disk (image_type : ImageType) (virtual_size : Nat)
    (image_file : List (List Nat)) : StreamResult :=
  if image_type = ImageType.DISK then
    { partition := some (_write_partition virtual_size),
      offset := MBR_SIZE_BYTES,
      written := image_file.flatten }
  else
    { partition := none, offset := 0, written := image_file.flatten }

/-! ## wait_for_vhd_coalesce -/

/-- Result of the coalesce wait: normal termination with the final parent
UUID and the number of polls performed; the attempts-exceeded error with
the counter value it reports and the number of polls performed; or the
mock reading list ran out while the loop was still polling. -/
inductive CoalesceOutcome where
  | done (parent : Option String) (polls : Nat)
  | timeout (counter : Nat) (polls : Nat)
  | outOfReadings (counter : Nat) (polls : Nat)
deriving DecidableEq

/-- Model of `_poll_vhds` iterated by the looping call, transcribed from the
source.  Each invocation first increments the counter and raises the
attempts-exceeded error when it passes `max_attempts`; otherwise it
rescans the repository, reads the current parent UUID (the next mock
reading), and either keeps polling (original parent set and current parent
different from it) or terminates returning the current parent. -/
def coalesce_loop (orig : Option String) (max_attempts : Nat)
    (readings : List (Option String)) (counter polls : Nat) : CoalesceOutcome :=
  if max_attempts < counter + 1 then CoalesceOutcome.timeout (counter + 1) polls
  else
    match readings with
    | [] => CoalesceOutcome.outOfReadings (counter + 1) polls
    | p :: rest =>
      if orig.isSome = true ∧ p ≠ orig then
        coalesce_loop orig max_attempts rest (counter + 1) (polls + 1)
      else CoalesceOutcome.done p (polls + 1)

/-- Model of `wait_for_vhd_coalesce`: start the looping call immediately
(`now=True`) with counter and poll count zero. -/
def wait_for_vhd_coalesce (orig : Option String) (max_attempts : Nat)
    (readings : List (Option String)) : CoalesceOutcome :=
  coalesce_loop orig max_attempts readings 0 0

/-! ## Image ingestion -/

/-- The descriptor dictionaries produced by the fetch paths:
`{vdi_type, vdi_uuid, file}`. -/
structure ImageDescriptor where
  vdi_type : Option String
  vdi_uuid : Option String
  file : Option String
deriving DecidableEq

/-- The two shapes `fetch_image` is documented to produce: a bare file
path, or a list of descriptor dictionaries. -/
inductive FetchResult where
  | filepath (p : String)
  | descriptors (ds : List ImageDescriptor)
deriving DecidableEq

/-- True iff the result is a bare file path. -/
def FetchResult.isFilepath : FetchResult → Bool
  | .filepath _ => true
  | _ => false

/-- Mock environment of `_fetch_image_glance_disk`: the scoped-attachment
environment, the UUID reported for the created VDI, the filename the
`copy_kernel_vdi` plugin returns, and an error the streaming callback
raises (if any). -/
structure FetchEnv where
  attach : AttachEnv
  vdi_uuid : String
  copy_kernel_result : String
  stream_error : Option PyErr
deriving DecidableEq

/-- Everything `_fetch_image_glance_disk` did: the `virtual_size` passed
to `VDI.create` (`none` when it failed before creating the VDI), whether
the temporary kernel/ramdisk VDI was destroyed again, the descriptor list
attached to a re-raised error (`e.args` extension), and the returned
result. -/
structure FetchOutcome where
  created_vdi_size : Option Nat
  vdi_destroyed : Bool
  error_descriptors : Option (List ImageDescriptor)
  result : Outcome FetchResult
deriving DecidableEq

/-- Model of `_fetch_image_glance_disk`, transcribed from the source: compute the
VDI size (image size plus `MBR_SIZE_BYTES` only for `DISK`); reject
kernel/ramdisk artifacts above `max_kernel_ramdisk_size`; create the VDI;
stream the image through `with_vdi_attached_here`; for kernel/ramdisk,
invoke the copy-out plugin, destroy the temporary VDI and return a
descriptor carrying the file path, otherwise return a descriptor carrying
the VDI UUID.  On a `XenAPI.Failure` / `IOError` / `OSError` the
descriptor list is attached to the error and the error is re-raised
(plugin copy-out and the final destroy are taken to succeed in the mock;
the log call at entry evaluates `ImageType.to_string` first). -/
def _fetch_image_glance_disk (env : FetchEnv) (image_type : ImageType)
    (virtual_size : Nat) (max_kernel_ramdisk_size : Nat)
    (image_file : List (List Nat)) : FetchOutcome :=
  match ImageType.to_string image_type with
  | PyResult.exn e =>
    { created_vdi_size := none, vdi_destroyed := false,
      error_descriptors := none, result := Outcome.error e }
  | PyResult.ok ts =>
    let vdi_size := if image_type = ImageType.DISK
                    then virtual_size + MBR_SIZE_BYTES else virtual_size
    if kernel_or_ramdisk image_type = true ∧ max_kernel_ramdisk_size < virtual_size then
      { created_vdi_size := none, vdi_destroyed := false,
        error_descriptors := none,
        result := Outcome.error
          (PyErr.genError "Kernel/Ramdisk image is too large") }
    else
      let body := with_vdi_attached_here env.attach (fun _dev =>
        match env.stream_error with
        | some e => Except.error e
        | none => Except.ok (_stream_disk image_type virtual_size image_file))
      match body.2 with
      | Outcome.hang =>
        { created_vdi_size := some vdi_size, vdi_destroyed := false,
          error_descriptors := none, result := Outcome.hang }
      | Outcome.error e =>
        if e.caughtByFetch then
          { created_vdi_size := some vdi_size, vdi_destroyed := false,
            error_descriptors := some [⟨ts, some env.vdi_uuid, none⟩],
            result := Outcome.error e }
        else
          { created_vdi_size := some vdi_size, vdi_destroyed := false,
            error_descriptors := none, result := Outcome.error e }
      | Outcome.ok _ =>
        if kernel_or_ramdisk image_type then
          { created_vdi_size := some vdi_size, vdi_destroyed := true,
            error_descriptors := none,
            result := Outcome.ok (FetchResult.descriptors
              [⟨ts, none, some env.copy_kernel_result⟩]) }
        else
          { created_vdi_size := some vdi_size, vdi_destroyed := false,
            error_descriptors := none,
            result := Outcome.ok (FetchResult.descriptors
              [⟨ts, some env.vdi_uuid, none⟩]) }

/-- Model of `_fetch_image_objectstore`, transcribed from the source: delegate to
the objectstore plugin (`get_kernel` for kernel/ramdisk, `get_vdi`
otherwise; `task_result` is what `wait_for_task` returns) and build one
descriptor: the file path for kernel/ramdisk, the VDI UUID otherwise. -/
def _fetch_image_objectstore (image_type : ImageType) (task_result : String) :
    PyResult FetchResult :=
  match ImageType.to_string image_type with
  | PyResult.exn e => PyResult.exn e
  | PyResult.ok ts =>
    if kernel_or_ramdisk image_type then
      PyResult.ok (FetchResult.descriptors [⟨ts, none, some task_result⟩])
    else
      PyResult.ok (FetchResult.descriptors [⟨ts, some task_result, none⟩])

/-- Model of `_fetch_image_glance_vhd`: the glance plugin downloads the
VHDs and returns a JSON-encoded descriptor list (`vhd_plugin_result`
after decoding); after the repository rescan the function reads
`vdis[0]` to relabel the primary VDI for diagnostics, which raises
`IndexError` when the plugin returned an empty list; otherwise the
decoded list is returned verbatim. -/
def _fetch_image_glance_vhd (vhd_plugin_result : List ImageDescriptor) :
    PyResult (List ImageDescriptor) :=
  match vhd_plugin_result with
  | [] => PyResult.exn (PyErr.indexError "list index out of range")
  | _ :: _ => PyResult.ok vhd_plugin_result

/-- Model of `_fetch_image_glance`: the VHD image type goes to the glance
plugin path `_fetch_image_glance_vhd`; every other type is streamed
through `_fetch_image_glance_disk`. -/
def _fetch_image_glance (env : FetchEnv) (image_type : ImageType)
    (virtual_size max_kernel_ramdisk_size : Nat) (image_file : List (List Nat))
    (vhd_plugin_result : List ImageDescriptor) : Outcome FetchResult :=
  if image_type = ImageType.DISK_VHD then
    match _fetch_image_glance_vhd vhd_plugin_result with
    | PyResult.ok vdis => Outcome.ok (FetchResult.descriptors vdis)
    | PyResult.exn e => Outcome.error e
  else
    (_fetch_image_glance_disk env image_type virtual_size
      max_kernel_ramdisk_size image_file).result

/-- Model of `fetch_image`: dispatch on `FLAGS.xenapi_image_service`. -/
def fetch_image (xenapi_image_service : String) (env : FetchEnv)
    (image_type : ImageType) (virtual_size max_kernel_ramdisk_size : Nat)
    (image_file : List (List Nat)) (vhd_plugin_result : List ImageDescriptor)
    (objectstore_task_result : String) : Outcome FetchResult :=
  if xenapi_image_service = "glance" then
    _fetch_image_glance env image_type virtual_size max_kernel_ramdisk_size
      image_file vhd_plugin_result
  else
    match _fetch_image_objectstore image_type objectstore_task_result with
    | PyResult.ok r => Outcome.ok r
    | PyResult.exn e => Outcome.error e

/-! ## _determine_is_pv_glance -/

/-- Model of `_determine_is_pv_glance`, transcribed from the source: `DISK_VHD`
uses the OS type (`windows` means not paravirtualized); `DISK_RAW` runs
the pygrub probe `_is_vdi_pv` on the device through
`with_vdi_attached_here` (the probe's verdict is the mock's
`pygrub_is_pv`); `DISK` is always paravirtualized; anything else raises
the unknown-image-format error. -/
def _determine_is_pv_glance (env : AttachEnv) (pygrub_is_pv : Bool)
    (disk_image_type : ImageType) (os_type : String) :
    List Event × Outcome Bool :=
  match disk_image_type with
  | ImageType.DISK_VHD =>
    ([], Outcome.ok (if os_type = "windows" then false else true))
  | ImageType.DISK_RAW =>
    with_vdi_attached_here env (fun _ => Except.ok pygrub_is_pv)
  | ImageType.DISK => ([], Outcome.ok true)
  | _ => ([], Outcome.error (PyErr.genError "Unknown image format"))

/-! ## Concrete mock environments used by witnesses and counterexamples -/

/-- A fully successful attachment environment: plug succeeds, the device
node appears immediately, the first unplug attempt succeeds, destroy
succeeds. -/
def env_ok : AttachEnv :=
  { plug_failure := none, orig_dev := "xvda", should_remap := false,
    remap_new := "sd", device_appears_at := some 0, wait_timeout := 10,
    unplug_responses := [UnplugResponse.ok], destroy_failure := none }

/-- An attachment environment whose unplug is rejected once before
succeeding and whose destroy raises a (swallowed) failure. -/
def envC1 : AttachEnv :=
  { plug_failure := none, orig_dev := "xvda", should_remap := true,
    remap_new := "sd", device_appears_at := some 0, wait_timeout := 10,
    unplug_responses := [UnplugResponse.failure ["DEVICE_DETACH_REJECTED"],
                         UnplugResponse.ok],
    destroy_failure := some ["HANDLE_INVALID"] }

/-- The caller operation used by the C1 witness: return the device name. -/
def fC1 : String → Except PyErr String := fun dev => Except.ok dev

/-- A fully successful fetch environment on top of `env_ok`. -/
def fenv_ok : FetchEnv :=
  { attach := env_ok, vdi_uuid := "uuid-1",
    copy_kernel_result := "/boot/guest/k", stream_error := none }

/-! ## Helper lemmas about traces -/

/-- Destroy-call counting distributes over trace concatenation. -/
theorem countDestroy_append (a b : List Event) :
    countDestroy (a ++ b) = countDestroy a + countDestroy b := by
  induction a with
  | nil => simp [countDestroy]
  | cons x xs ih => cases x <;> (simp [countDestroy, ih]; try omega)

/-- Caller-operation counting distributes over trace concatenation. -/
theorem countOp_append (a b : List Event) :
    countOp (a ++ b) = countOp a + countOp b := by
  induction a with
  | nil => simp [countOp]
  | cons x xs ih => cases x <;> (simp [countOp, ih]; try omega)

/-- The last event of a trace extended by one event is that event. -/
theorem lastEvent_append_single (l : List Event) (e : Event) :
    lastEvent? (l ++ [e]) = some e := by
  induction l with
  | nil => rfl
  | cons x xs ih =>
    cases xs with
    | nil => rfl
    | cons y ys => simpa [lastEvent?] using ih

/-- The try body of the scoped attachment never calls `VBD.destroy`. -/
theorem attach_body_countDestroy {α : Type} (env : AttachEnv)
    (f : String → Except PyErr α) :
    countDestroy (attach_body env f).1 = 0 := by
  cases h : env.plug_failure with
  | none =>
    simp only [attach_body, h]
    split
    · simp [countDestroy]
    · split <;> simp [countDestroy]
  | some ds => simp [attach_body, h, countDestroy]

/-- When the plug succeeds and the device wait succeeds (or is skipped for
the placeholder name), the try body invokes the caller operation on the
remapped device name. -/
theorem attach_body_success {α : Type} (env : AttachEnv)
    (f : String → Except PyErr α)
    (hplug : env.plug_failure = none)
    (hdev : remap_vbd_dev env.should_remap env.remap_new env.orig_dev = "autodetect"
            ∨ wait_for_device_ok env.device_appears_at env.wait_timeout = true) :
    attach_body env f =
      ([Event.plugCall,
        Event.opCall (remap_vbd_dev env.should_remap env.remap_new env.orig_dev)],
       f (remap_vbd_dev env.should_remap env.remap_new env.orig_dev)) := by
  rcases hdev with h | h
  · simp [attach_body, hplug, h]
  · by_cases ha : remap_vbd_dev env.should_remap env.remap_new env.orig_dev = "autodetect"
    · simp [attach_body, hplug, ha]
    · simp [attach_body, hplug, ha, h]

/-- The unplug retry loop never calls `VBD.destroy`. -/
theorem unplug_countDestroy (rs : List UnplugResponse) :
    countDestroy (vbd_unplug_with_retry rs).1 = 0 := by
  induction rs with
  | nil => simp [vbd_unplug_with_retry, countDestroy]
  | cons r rest ih =>
    cases r with
    | ok => simp [vbd_unplug_with_retry, countDestroy]
    | failure ds =>
      simp only [vbd_unplug_with_retry]
      split
      · simpa [countDestroy] using ih
      · split <;> simp [countDestroy]

/-- The unplug retry loop never invokes the caller operation. -/
theorem unplug_countOp (rs : List UnplugResponse) :
    countOp (vbd_unplug_with_retry rs).1 = 0 := by
  induction rs with
  | nil => simp [vbd_unplug_with_retry, countOp]
  | cons r rest ih =>
    cases r with
    | ok => simp [vbd_unplug_with_retry, countOp]
    | failure ds =>
      simp only [vbd_unplug_with_retry]
      split
      · simpa [countOp] using ih
      · split <;> simp [countOp]

/-- The `ignore_failure`-guarded destroy never lets an exception escape,
because `VBD.destroy` fails with `XenAPI.Failure` which is swallowed. -/
theorem destroy_swallowed (env : AttachEnv) :
    ∃ o, ignore_failure (destroy_call env) = Except.ok o := by
  cases hd : env.destroy_failure with
  | none => exact ⟨some (), by simp [ignore_failure, destroy_call, hd]⟩
  | some ds => exact ⟨none, by simp [ignore_failure, destroy_call, hd]⟩

/-- Whenever the unplug retry terminates on the mock, the scoped
attachment runs the try body, then the unplug trace, then exactly the
destroy call, and its outcome is the body\'s. -/
theorem with_vdi_eq {α : Type} (env : AttachEnv) (f : String → Except PyErr α)
    (hterm : (vbd_unplug_with_retry env.unplug_responses).2 ≠ UnplugResult.exhausted) :
    with_vdi_attached_here env f =
      ((attach_body env f).1 ++ (vbd_unplug_with_retry env.unplug_responses).1
         ++ [Event.destroyCall],
       liftExcept (attach_body env f).2) := by
  obtain ⟨o, ho⟩ := destroy_swallowed env
  cases hu : (vbd_unplug_with_retry env.unplug_responses).2 with
  | exhausted => exact absurd hu hterm
  | success => simp [with_vdi_attached_here, hu, ho]
  | alreadyDetached => simp [with_vdi_attached_here, hu, ho]
  | ignoredFailure ds => simp [with_vdi_attached_here, hu, ho]

/-! ## Helper lemmas about the coalesce loop -/

/-- A run of readings that all differ from the (set) original parent is
polled through one reading per iteration, and the first reading that does
not differ (or when no original parent is set) terminates the loop with
that reading as the returned parent. -/
theorem coalesce_stop (orig : Option String) (maxA : Nat)
    (bs : List (Option String)) (p : Option String) (rest : List (Option String)) :
    ∀ counter polls, (∀ b ∈ bs, orig.isSome = true ∧ b ≠ orig) →
    ¬(orig.isSome = true ∧ p ≠ orig) →
    counter + bs.length + 1 ≤ maxA →
    coalesce_loop orig maxA (bs ++ p :: rest) counter polls
      = CoalesceOutcome.done p (polls + bs.length + 1) := by
  induction bs with
  | nil =>
    intro counter polls _ hp hlen
    simp only [List.length_nil] at hlen ⊢
    rw [List.nil_append, coalesce_loop]
    rw [if_neg (by omega)]
    simp [if_neg hp]
  | cons b bs ih =>
    intro counter polls hb hp hlen
    have hbd := hb b (List.mem_cons_self b bs)
    simp only [List.length_cons] at hlen ⊢
    rw [List.cons_append, coalesce_loop]
    rw [if_neg (by omega)]
    simp only [if_pos hbd]
    have := ih (counter + 1) (polls + 1)
      (fun x hx => hb x (List.mem_cons_of_mem b hx)) hp (by omega)
    rw [this]
    have harith : polls + 1 + bs.length + 1 = polls + (bs.length + 1) + 1 := by omega
    rw [harith]

/-- A run of readings that all differ from the (set) original parent and
is long enough to use up the attempt budget makes the loop fail with the
attempts-exceeded error: the counter reported is one past the maximum and
the number of performed polls is the maximum. -/
theorem coalesce_timeout (orig : Option String) (maxA : Nat)
    (bs rest : List (Option String)) :
    ∀ counter polls, (∀ b ∈ bs, orig.isSome = true ∧ b ≠ orig) →
    counter + bs.length = maxA →
    coalesce_loop orig maxA (bs ++ rest) counter polls
      = CoalesceOutcome.timeout (maxA + 1) (polls + bs.length) := by
  induction bs with
  | nil =>
    intro counter polls _ hc
    simp only [List.length_nil] at hc ⊢
    rw [List.nil_append, coalesce_loop.eq_def]
    rw [if_pos (by omega)]
    simp only [Nat.add_zero] at hc ⊢
    simp [hc]
  | cons b bs ih =>
    intro counter polls hb hc
    have hbd := hb b (List.mem_cons_self b bs)
    simp only [List.length_cons] at hc ⊢
    rw [List.cons_append, coalesce_loop]
    rw [if_neg (by omega)]
    simp only [if_pos hbd]
    have := ih (counter + 1) (polls + 1)
      (fun x hx => hb x (List.mem_cons_of_mem b hx)) (by omega)
    rw [this]
    have harith : polls + 1 + bs.length = polls + (bs.length + 1) := by omega
    rw [harith]

/-- Auxiliary: a mock that rejects the unplug `n` times and then succeeds
leads to `n + 1` unplug attempts, `n` one-second sleeps, and a normal
return. -/
theorem unplug_rejected_n (n : Nat) :
    countUnplug (vbd_unplug_with_retry
      (List.replicate n (UnplugResponse.failure ["DEVICE_DETACH_REJECTED"])
        ++ [UnplugResponse.ok])).1 = n + 1
    ∧ countSleep (vbd_unplug_with_retry
      (List.replicate n (UnplugResponse.failure ["DEVICE_DETACH_REJECTED"])
        ++ [UnplugResponse.ok])).1 = n
    ∧ (vbd_unplug_with_retry
      (List.replicate n (UnplugResponse.failure ["DEVICE_DETACH_REJECTED"])
        ++ [UnplugResponse.ok])).2 = UnplugResult.success := by
  induction n with
  | zero => refine ⟨by decide, by decide, by decide⟩
  | succ n ih =>
    obtain ⟨h1, h2, h3⟩ := ih
    simp only [List.replicate_succ, List.cons_append, vbd_unplug_with_retry]
    rw [if_pos (by decide)]
    refine ⟨?_, ?_, ?_⟩
    · simpa [countUnplug, countSleep] using h1
    · simpa [countUnplug, countSleep] using h2
    · simpa using h3

/-! ## Claim theorems -/

/-- Claim C1: for every invocation of the scoped attachment in which the
VBD was created, on every exit path (the caller operation returns, the
caller operation raises, or the plug / device-wait step raises) and
whenever the unplug retry policy terminates on the given mock responses:
the trace ends with exactly one `VBD.destroy` call issued after the
unplug retry, the outcome equals the try body\'s result (so a destroy
failure is never raised to the caller and cannot mask the primary result
or error), and on the success path the returned value is the caller
operation applied to the (possibly remapped) device name. -/
theorem claim_C1_scoped_attachment {α : Type} (env : AttachEnv)
    (f : String → Except PyErr α)
    (hterm : (vbd_unplug_with_retry env.unplug_responses).2 ≠ UnplugResult.exhausted) :
    countDestroy (with_vdi_attached_here env f).1 = 1
    ∧ lastEvent? (with_vdi_attached_here env f).1 = some Event.destroyCall
    ∧ (with_vdi_attached_here env f).2 = liftExcept (attach_body env f).2
    ∧ (env.plug_failure = none →
        (remap_vbd_dev env.should_remap env.remap_new env.orig_dev = "autodetect"
          ∨ wait_for_device_ok env.device_appears_at env.wait_timeout = true) →
        (with_vdi_attached_here env f).2
          = liftExcept (f (remap_vbd_dev env.should_remap env.remap_new env.orig_dev))) := by
  have h := with_vdi_eq env f hterm
  refine ⟨?_, ?_, ?_, ?_⟩
  · rw [h]
    simp [countDestroy_append, attach_body_countDestroy, unplug_countDestroy, countDestroy]
  · rw [h]
    exact lastEvent_append_single _ _
  · rw [h]
  · intro hplug hdev
    rw [h, attach_body_success env f hplug hdev]

/-- Witness for C1 at a concrete mock: plug succeeds, the device appears
immediately, the unplug is rejected once and then succeeds, and the
destroy raises a failure which is swallowed. -/
theorem claim_C1_witness :
    (vbd_unplug_with_retry envC1.unplug_responses).2 ≠ UnplugResult.exhausted
    ∧ (countDestroy (with_vdi_attached_here envC1 fC1).1 = 1
       ∧ lastEvent? (with_vdi_attached_here envC1 fC1).1 = some Event.destroyCall
       ∧ (with_vdi_attached_here envC1 fC1).2 = liftExcept (attach_body envC1 fC1).2
       ∧ (envC1.plug_failure = none →
           (remap_vbd_dev envC1.should_remap envC1.remap_new envC1.orig_dev = "autodetect"
             ∨ wait_for_device_ok envC1.device_appears_at envC1.wait_timeout = true) →
           (with_vdi_attached_here envC1 fC1).2
             = liftExcept (fC1 (remap_vbd_dev envC1.should_remap envC1.remap_new envC1.orig_dev)))) :=
  ⟨by decide, claim_C1_scoped_attachment envC1 fC1 (by decide)⟩

/-- Counterexample for claim C2 as stated: with original parent `a` and
current-parent readings `[a, a, b]`, the loop terminates on the very
first poll (the reading equals the original parent) and returns `a`, not
`b` after three polls; and with readings that never diverge from `a` it
also returns after one poll instead of timing out. -/
theorem claim_C2_counterexample :
    wait_for_vhd_coalesce (some "a") 3 [some "a", some "a", some "b"]
      = CoalesceOutcome.done (some "a") 1
    ∧ CoalesceOutcome.done (some "a") 1 ≠ CoalesceOutcome.done (some "b") 3
    ∧ wait_for_vhd_coalesce (some "a") 3 [some "a", some "a", some "a"]
      = CoalesceOutcome.done (some "a") 1 := by decide

/-- Claim C2 as amended: with original parent `a`, readings that differ
from `a` on the first two polls and equal `a` on the third make the loop
poll exactly 3 times and return `a`; readings that always differ from `a`
with `max_attempts = 3` make it fail with the convergence-timeout error
after exactly 3 polls (the error is raised on the 4th loop entry and
reports the counter value 4). -/
theorem claim_C2_amended (a : String) (b1 b2 : Option String)
    (h1 : b1 ≠ some a) (h2 : b2 ≠ some a)
    (c1 c2 c3 : Option String) (cs : List (Option String))
    (hc : ∀ c ∈ ([c1, c2, c3] : List (Option String)), c ≠ some a) :
    wait_for_vhd_coalesce (some a) 3 [b1, b2, some a]
      = CoalesceOutcome.done (some a) 3
    ∧ wait_for_vhd_coalesce (some a) 3 (c1 :: c2 :: c3 :: cs)
      = CoalesceOutcome.timeout 4 3 := by
  constructor
  · have h := coalesce_stop (some a) 3 [b1, b2] (some a) [] 0 0
      (by intro b hb
          simp only [List.mem_cons, List.not_mem_nil, or_false] at hb
          rcases hb with rfl | rfl
          · exact ⟨rfl, h1⟩
          · exact ⟨rfl, h2⟩)
      (by simp)
      (by simp)
    simpa [wait_for_vhd_coalesce] using h
  · have h := coalesce_timeout (some a) 3 [c1, c2, c3] cs 0 0
      (by intro b hb
          exact ⟨rfl, hc b hb⟩)
      (by simp)
    simpa [wait_for_vhd_coalesce] using h

/-- Witness for the amended C2 at concrete readings. -/
theorem claim_C2_amended_witness :
    (some "x" : Option String) ≠ some "a"
    ∧ (some "y" : Option String) ≠ some "a"
    ∧ (∀ c ∈ ([some "x", some "y", none] : List (Option String)), c ≠ some "a")
    ∧ (wait_for_vhd_coalesce (some "a") 3 [some "x", some "y", some "a"]
        = CoalesceOutcome.done (some "a") 3
       ∧ wait_for_vhd_coalesce (some "a") 3
          (some "x" :: some "y" :: (none : Option String) :: [])
        = CoalesceOutcome.timeout 4 3) :=
  ⟨by decide, by decide, by decide,
    claim_C2_amended "a" (some "x") (some "y") (by decide) (by decide)
      (some "x") (some "y") none [] (by decide)⟩

/-- Claim C3: in each polling iteration, a freshly read current parent
that differs from the (set) original parent makes the loop continue with
another poll, and the first reading for which this is not the case (the
original parent is unset, or the reading equals it) terminates the loop,
which returns that reading as the final parent UUID; here stated for any
divergent prefix `bs` followed by a terminating reading `p`. -/
theorem claim_C3_poll_iteration (orig : Option String) (maxA : Nat)
    (bs : List (Option String)) (p : Option String) (rest : List (Option String))
    (hb : ∀ b ∈ bs, orig.isSome = true ∧ b ≠ orig)
    (hp : orig = none ∨ p = orig)
    (hlen : bs.length + 1 ≤ maxA) :
    wait_for_vhd_coalesce orig maxA (bs ++ p :: rest)
      = CoalesceOutcome.done p (bs.length + 1) := by
  have hp' : ¬(orig.isSome = true ∧ p ≠ orig) := by
    rcases hp with h | h
    · simp [h]
    · simp [h]
  have h := coalesce_stop orig maxA bs p rest 0 0 hb hp' (by omega)
  simpa [wait_for_vhd_coalesce] using h

/-- Witness for C3: one divergent reading, then a reading equal to the
original parent terminates the loop returning it after two polls. -/
theorem claim_C3_witness :
    (∀ b ∈ ([some "q"] : List (Option String)),
      (some "p" : Option String).isSome = true ∧ b ≠ some "p")
    ∧ ((some "p" : Option String) = none ∨ (some "p" : Option String) = some "p")
    ∧ ([some "q"] : List (Option String)).length + 1 ≤ 5
    ∧ wait_for_vhd_coalesce (some "p") 5 ([some "q"] ++ some "p" :: [])
        = CoalesceOutcome.done (some "p") (([some "q"] : List (Option String)).length + 1) :=
  ⟨by decide, by decide, by decide,
    claim_C3_poll_iteration (some "p") 5 [some "q"] (some "p") []
      (by decide) (by decide) (by decide)⟩

/-- Claim C4: `vbd_unplug_with_retry` returns after one attempt on
success; treats a remote `DEVICE_ALREADY_DETACHED` failure as success; on
`DEVICE_DETACH_REJECTED` sleeps one second and retries with no attempt
ceiling, so `n` rejections followed by success give exactly `n + 1`
attempts and `n` sleeps (in particular 3 attempts and 2 sleeps for two
rejections) and a normal return; and any other remote failure is logged
and returned without raising. -/
theorem claim_C4_vbd_unplug_with_retry :
    vbd_unplug_with_retry [UnplugResponse.ok]
      = ([Event.unplugAttempt], UnplugResult.success)
    ∧ vbd_unplug_with_retry [UnplugResponse.failure ["DEVICE_ALREADY_DETACHED"]]
      = ([Event.unplugAttempt], UnplugResult.alreadyDetached)
    ∧ (countUnplug (vbd_unplug_with_retry
        [UnplugResponse.failure ["DEVICE_DETACH_REJECTED"],
         UnplugResponse.failure ["DEVICE_DETACH_REJECTED"],
         UnplugResponse.ok]).1 = 3
       ∧ countSleep (vbd_unplug_with_retry
        [UnplugResponse.failure ["DEVICE_DETACH_REJECTED"],
         UnplugResponse.failure ["DEVICE_DETACH_REJECTED"],
         UnplugResponse.ok]).1 = 2
       ∧ (vbd_unplug_with_retry
        [UnplugResponse.failure ["DEVICE_DETACH_REJECTED"],
         UnplugResponse.failure ["DEVICE_DETACH_REJECTED"],
         UnplugResponse.ok]).2 = UnplugResult.success)
    ∧ (∀ n : Nat,
        countUnplug (vbd_unplug_with_retry
          (List.replicate n (UnplugResponse.failure ["DEVICE_DETACH_REJECTED"])
            ++ [UnplugResponse.ok])).1 = n + 1
        ∧ countSleep (vbd_unplug_with_retry
          (List.replicate n (UnplugResponse.failure ["DEVICE_DETACH_REJECTED"])
            ++ [UnplugResponse.ok])).1 = n
        ∧ (vbd_unplug_with_retry
          (List.replicate n (UnplugResponse.failure ["DEVICE_DETACH_REJECTED"])
            ++ [UnplugResponse.ok])).2 = UnplugResult.success)
    ∧ (∀ ds : List String,
        ds.head? ≠ some "DEVICE_DETACH_REJECTED" →
        ds.head? ≠ some "DEVICE_ALREADY_DETACHED" →
        vbd_unplug_with_retry [UnplugResponse.failure ds]
          = ([Event.unplugAttempt], UnplugResult.ignoredFailure ds)) := by
  refine ⟨by decide, by decide, ⟨by decide, by decide, by decide⟩,
    fun n => unplug_rejected_n n, ?_⟩
  intro ds hrej hdet
  simp only [vbd_unplug_with_retry]
  rw [if_neg hrej, if_neg hdet]

/-- Witness for C4 at a concrete unknown failure code. -/
theorem claim_C4_witness :
    (["INTERNAL_ERROR"] : List String).head? ≠ some "DEVICE_DETACH_REJECTED"
    ∧ (["INTERNAL_ERROR"] : List String).head? ≠ some "DEVICE_ALREADY_DETACHED"
    ∧ vbd_unplug_with_retry [UnplugResponse.failure ["INTERNAL_ERROR"]]
      = ([Event.unplugAttempt], UnplugResult.ignoredFailure ["INTERNAL_ERROR"]) :=
  ⟨by decide, by decide,
    claim_C4_vbd_unplug_with_retry.2.2.2.2 ["INTERNAL_ERROR"] (by decide) (by decide)⟩

/-- Claim C5, evaluated at the failing members: the round-trip
`from_string (to_string x) = x` holds only for `KERNEL`.  `to_string`
itself raises `AttributeError` for `DISK_VHD` (the undefined attribute
`VHD_STR`), and `from_string` raises `NameError` (the unbound name
`image_type`) for every input other than `"kernel"`, in particular for
`"ramdisk"`, `"os"` and `"os_raw"`, so the encodings are not a
bijection as implemented. -/
theorem claim_C5_roundtrip_at_failing_inputs :
    ImageType.to_string ImageType.RAMDISK = PyResult.ok (some "ramdisk")
    ∧ ImageType.from_string "ramdisk" = PyResult.exn (PyErr.nameError "image_type")
    ∧ ImageType.from_string "os" = PyResult.exn (PyErr.nameError "image_type")
    ∧ ImageType.from_string "os_raw" = PyResult.exn (PyErr.nameError "image_type")
    ∧ ImageType.to_string ImageType.DISK_VHD
      = PyResult.exn (PyErr.attributeError "VHD_STR")
    ∧ ImageType.from_string "kernel" = PyResult.ok (some ImageType.KERNEL) := by
  decide

/-- Claim C6: with image type `DISK`, `_stream_disk` writes a single
primary MSDOS partition from sector 63 to sector
`63 + virtual_size / 512 - 1` (sector 2110 for a virtual size of
1048576) and streams the image bytes starting at offset `63 * 512`; for
every other image type no partition call occurs and the write offset is
0. -/
theorem claim_C6_stream_disk (vs : Nat) (file : List (List Nat)) (it : ImageType)
    (h : it ≠ ImageType.DISK) :
    (_stream_disk ImageType.DISK vs file).partition = some (63, 63 + vs / 512 - 1)
    ∧ (_stream_disk ImageType.DISK vs file).offset = 63 * 512
    ∧ (_stream_disk ImageType.DISK vs file).written = file.flatten
    ∧ (_stream_disk ImageType.DISK 1048576 file).partition = some (63, 2110)
    ∧ (_stream_disk it vs file).partition = none
    ∧ (_stream_disk it vs file).offset = 0 := by
  refine ⟨?_, ?_, ?_, ?_, ?_, ?_⟩
  · simp [_stream_disk, _write_partition, MBR_SIZE_SECTORS, SECTOR_SIZE]
  · simp [_stream_disk, MBR_SIZE_BYTES, MBR_SIZE_SECTORS, SECTOR_SIZE]
  · simp [_stream_disk]
  · simp [_stream_disk, _write_partition, MBR_SIZE_SECTORS, SECTOR_SIZE]
  · simp [_stream_disk, h]
  · simp [_stream_disk, h]

/-- Witness for C6 at the non-`DISK` type `DISK_RAW`. -/
theorem claim_C6_witness :
    ImageType.DISK_RAW ≠ ImageType.DISK
    ∧ ((_stream_disk ImageType.DISK 1048576 []).partition
        = some (63, 63 + 1048576 / 512 - 1)
       ∧ (_stream_disk ImageType.DISK 1048576 []).offset = 63 * 512
       ∧ (_stream_disk ImageType.DISK 1048576 []).written = List.flatten []
       ∧ (_stream_disk ImageType.DISK 1048576 []).partition = some (63, 2110)
       ∧ (_stream_disk ImageType.DISK_RAW 1048576 []).partition = none
       ∧ (_stream_disk ImageType.DISK_RAW 1048576 []).offset = 0) :=
  ⟨by decide, claim_C6_stream_disk 1048576 [] ImageType.DISK_RAW (by decide)⟩

/-- Counterexample for claim C7 as stated: with the streaming backend, a
raw (`os_raw` / `DISK_RAW`) image of declared size 10 MiB creates a VDI
of exactly 10485760 bytes — the `63 * 512` MBR reservation is added only
for the legacy partitioned type `DISK`, whose descriptor however carries
`vdi_type = "os"`, so no image type yields both the claimed size and the
claimed descriptor. -/
theorem claim_C7_counterexample :
    (_fetch_image_glance_disk fenv_ok ImageType.DISK_RAW 10485760 16777216 []).created_vdi_size
      = some 10485760
    ∧ (10485760 : Nat) ≠ 10485760 + 63 * 512
    ∧ (_fetch_image_glance_disk fenv_ok ImageType.DISK_RAW 10485760 16777216 []).result
      = Outcome.ok (FetchResult.descriptors
          [⟨some "os_raw", some "uuid-1", none⟩])
    ∧ (_fetch_image_glance_disk fenv_ok ImageType.DISK 10485760 16777216 []).created_vdi_size
      = some (10485760 + 63 * 512)
    ∧ (_fetch_image_glance_disk fenv_ok ImageType.DISK 10485760 16777216 []).result
      = Outcome.ok (FetchResult.descriptors
          [⟨some "os", some "uuid-1", none⟩]) := by decide

/-- Claim C7 as amended: fetching a raw (`DISK_RAW`) disk image of
declared size 10 MiB through the streaming backend creates a virtual
disk of exactly 10485760 bytes (no MBR reservation for this type) and
returns the descriptor `{vdi_type: "os_raw", vdi_uuid: <uuid>, file:
null}`. -/
theorem claim_C7_amended (env : FetchEnv) (maxk : Nat) (file : List (List Nat))
    (hplug : env.attach.plug_failure = none)
    (hdev : remap_vbd_dev env.attach.should_remap env.attach.remap_new
              env.attach.orig_dev = "autodetect"
            ∨ wait_for_device_ok env.attach.device_appears_at
                env.attach.wait_timeout = true)
    (hterm : (vbd_unplug_with_retry env.attach.unplug_responses).2
              ≠ UnplugResult.exhausted)
    (hstream : env.stream_error = none) :
    (_fetch_image_glance_disk env ImageType.DISK_RAW 10485760 maxk file).created_vdi_size
      = some 10485760
    ∧ (_fetch_image_glance_disk env ImageType.DISK_RAW 10485760 maxk file).result
      = Outcome.ok (FetchResult.descriptors
          [⟨some "os_raw", some env.vdi_uuid, none⟩]) := by
  have hbody := with_vdi_eq env.attach
    (fun _dev =>
      match env.stream_error with
      | some e => Except.error e
      | none => Except.ok (_stream_disk ImageType.DISK_RAW 10485760 file)) hterm
  rw [attach_body_success _ _ hplug hdev] at hbody
  simp only [hstream, liftExcept] at hbody
  constructor
  · simp [_fetch_image_glance_disk, ImageType.to_string, kernel_or_ramdisk,
      hstream, hbody]
  · simp [_fetch_image_glance_disk, ImageType.to_string, kernel_or_ramdisk,
      hstream, hbody]

/-- Witness for the amended C7 at the fully successful mock. -/
theorem claim_C7_amended_witness :
    fenv_ok.attach.plug_failure = none
    ∧ (remap_vbd_dev fenv_ok.attach.should_remap fenv_ok.attach.remap_new
          fenv_ok.attach.orig_dev = "autodetect"
       ∨ wait_for_device_ok fenv_ok.attach.device_appears_at
           fenv_ok.attach.wait_timeout = true)
    ∧ (vbd_unplug_with_retry fenv_ok.attach.unplug_responses).2
        ≠ UnplugResult.exhausted
    ∧ fenv_ok.stream_error = none
    ∧ ((_fetch_image_glance_disk fenv_ok ImageType.DISK_RAW 10485760 16777216 []).created_vdi_size
        = some 10485760
       ∧ (_fetch_image_glance_disk fenv_ok ImageType.DISK_RAW 10485760 16777216 []).result
        = Outcome.ok (FetchResult.descriptors
            [⟨some "os_raw", some fenv_ok.vdi_uuid, none⟩])) :=
  ⟨by decide, by decide, by decide, by decide,
    claim_C7_amended fenv_ok 16777216 [] (by decide) (by decide) (by decide) (by decide)⟩

/-- Counterexample for claim C8 as stated: for the `KERNEL` image type,
both the glance streaming path and the objectstore path return a
single-element list of descriptor dictionaries (with the `file` field
populated), never a bare file path. -/
theorem claim_C8_counterexample :
    fetch_image "glance" fenv_ok ImageType.KERNEL 1024 16777216 [] [] "tr"
      = Outcome.ok (FetchResult.descriptors
          [⟨some "kernel", none, some "/boot/guest/k"⟩])
    ∧ FetchResult.isFilepath (FetchResult.descriptors
        [⟨some "kernel", none, some "/boot/guest/k"⟩]) = false
    ∧ fetch_image "objectstore" fenv_ok ImageType.KERNEL 1024 16777216 [] [] "/tmp/kernel-file"
      = Outcome.ok (FetchResult.descriptors
          [⟨some "kernel", none, some "/tmp/kernel-file"⟩])
    ∧ FetchResult.isFilepath (FetchResult.descriptors
        [⟨some "kernel", none, some "/tmp/kernel-file"⟩]) = false := by decide

/-- Claim C8 as amended: `fetch_image` never returns a bare file path
under either backend.  In the glance streaming path and the objectstore
path (image types `KERNEL`, `RAMDISK`, `DISK`, `DISK_RAW`) it returns a
one-element descriptor list with exactly one of `vdi_uuid` / `file`
populated: the file path for kernel/ramdisk artifacts, the VDI UUID
otherwise (the per-function docstrings promising a bare file path for
those types are stale).  The glance `DISK_VHD` path returns the
plugin\'s descriptor list verbatim when it is non-empty and raises
`IndexError` (from the `vdis[0]` primary-VDI relabel) when the plugin
returned an empty list; the objectstore backend with `DISK_VHD` raises
`AttributeError` out of `to_string` instead of returning anything. -/
theorem claim_C8_amended (env : FetchEnv) (it : ImageType) (vs maxk : Nat)
    (file : List (List Nat)) (vhd : List ImageDescriptor)
    (d : ImageDescriptor) (ds : List ImageDescriptor) (tr : String)
    (ts : Option String)
    (hplug : env.attach.plug_failure = none)
    (hdev : remap_vbd_dev env.attach.should_remap env.attach.remap_new
              env.attach.orig_dev = "autodetect"
            ∨ wait_for_device_ok env.attach.device_appears_at
                env.attach.wait_timeout = true)
    (hterm : (vbd_unplug_with_retry env.attach.unplug_responses).2
              ≠ UnplugResult.exhausted)
    (hstream : env.stream_error = none)
    (hsize : kernel_or_ramdisk it = true → vs ≤ maxk)
    (hts : ImageType.to_string it = PyResult.ok ts) :
    fetch_image "objectstore" env it vs maxk file vhd tr
      = Outcome.ok (FetchResult.descriptors
          (if kernel_or_ramdisk it then [⟨ts, none, some tr⟩]
           else [⟨ts, some tr, none⟩]))
    ∧ (it ≠ ImageType.DISK_VHD →
        fetch_image "glance" env it vs maxk file vhd tr
          = Outcome.ok (FetchResult.descriptors
              (if kernel_or_ramdisk it then [⟨ts, none, some env.copy_kernel_result⟩]
               else [⟨ts, some env.vdi_uuid, none⟩])))
    ∧ fetch_image "glance" env ImageType.DISK_VHD vs maxk file (d :: ds) tr
      = Outcome.ok (FetchResult.descriptors (d :: ds))
    ∧ fetch_image "glance" env ImageType.DISK_VHD vs maxk file [] tr
      = Outcome.error (PyErr.indexError "list index out of range")
    ∧ fetch_image "objectstore" env ImageType.DISK_VHD vs maxk file vhd tr
      = Outcome.error (PyErr.attributeError "VHD_STR") := by
  have hvhd_ok : fetch_image "glance" env ImageType.DISK_VHD vs maxk file (d :: ds) tr
      = Outcome.ok (FetchResult.descriptors (d :: ds)) := by
    simp [fetch_image, _fetch_image_glance, _fetch_image_glance_vhd]
  have hvhd_empty : fetch_image "glance" env ImageType.DISK_VHD vs maxk file [] tr
      = Outcome.error (PyErr.indexError "list index out of range") := by
    simp [fetch_image, _fetch_image_glance, _fetch_image_glance_vhd]
  have hobj_vhd : fetch_image "objectstore" env ImageType.DISK_VHD vs maxk file vhd tr
      = Outcome.error (PyErr.attributeError "VHD_STR") := by
    rw [fetch_image, if_neg (by decide)]
    simp [_fetch_image_objectstore, ImageType.to_string]
  have hbody := with_vdi_eq env.attach
    (fun _dev =>
      match env.stream_error with
      | some e => Except.error e
      | none => Except.ok (_stream_disk it vs file)) hterm
  rw [attach_body_success _ _ hplug hdev] at hbody
  simp only [hstream, liftExcept] at hbody
  cases it with
  | KERNEL =>
    simp only [ImageType.to_string, PyResult.ok.injEq] at hts
    subst hts
    have hs := hsize rfl
    refine ⟨?_, fun _ => ?_, hvhd_ok, hvhd_empty, hobj_vhd⟩
    · rw [fetch_image, if_neg (by decide)]
      simp [_fetch_image_objectstore, ImageType.to_string, kernel_or_ramdisk]
    · rw [fetch_image, if_pos rfl, _fetch_image_glance, if_neg (by decide)]
      simp [_fetch_image_glance_disk, ImageType.to_string, kernel_or_ramdisk,
        hstream, hbody, Nat.not_lt.mpr hs]
  | RAMDISK =>
    simp only [ImageType.to_string, PyResult.ok.injEq] at hts
    subst hts
    have hs := hsize rfl
    refine ⟨?_, fun _ => ?_, hvhd_ok, hvhd_empty, hobj_vhd⟩
    · rw [fetch_image, if_neg (by decide)]
      simp [_fetch_image_objectstore, ImageType.to_string, kernel_or_ramdisk]
    · rw [fetch_image, if_pos rfl, _fetch_image_glance, if_neg (by decide)]
      simp [_fetch_image_glance_disk, ImageType.to_string, kernel_or_ramdisk,
        hstream, hbody, Nat.not_lt.mpr hs]
  | DISK =>
    simp only [ImageType.to_string, PyResult.ok.injEq] at hts
    subst hts
    refine ⟨?_, fun _ => ?_, hvhd_ok, hvhd_empty, hobj_vhd⟩
    · rw [fetch_image, if_neg (by decide)]
      simp [_fetch_image_objectstore, ImageType.to_string, kernel_or_ramdisk]
    · rw [fetch_image, if_pos rfl, _fetch_image_glance, if_neg (by decide)]
      simp [_fetch_image_glance_disk, ImageType.to_string, kernel_or_ramdisk,
        hstream, hbody]
  | DISK_RAW =>
    simp only [ImageType.to_string, PyResult.ok.injEq] at hts
    subst hts
    refine ⟨?_, fun _ => ?_, hvhd_ok, hvhd_empty, hobj_vhd⟩
    · rw [fetch_image, if_neg (by decide)]
      simp [_fetch_image_objectstore, ImageType.to_string, kernel_or_ramdisk]
    · rw [fetch_image, if_pos rfl, _fetch_image_glance, if_neg (by decide)]
      simp [_fetch_image_glance_disk, ImageType.to_string, kernel_or_ramdisk,
        hstream, hbody]
  | DISK_VHD => simp [ImageType.to_string] at hts

/-- Witness for the amended C8 at the `KERNEL` type, with a non-empty
plugin descriptor list for the `DISK_VHD` conjuncts. -/
theorem claim_C8_amended_witness :
    fenv_ok.attach.plug_failure = none
    ∧ (remap_vbd_dev fenv_ok.attach.should_remap fenv_ok.attach.remap_new
          fenv_ok.attach.orig_dev = "autodetect"
       ∨ wait_for_device_ok fenv_ok.attach.device_appears_at
           fenv_ok.attach.wait_timeout = true)
    ∧ (vbd_unplug_with_retry fenv_ok.attach.unplug_responses).2
        ≠ UnplugResult.exhausted
    ∧ fenv_ok.stream_error = none
    ∧ (kernel_or_ramdisk ImageType.KERNEL = true → 1024 ≤ 16777216)
    ∧ ImageType.to_string ImageType.KERNEL = PyResult.ok (some "kernel")
    ∧ (fetch_image "objectstore" fenv_ok ImageType.KERNEL 1024 16777216 [] [] "/tmp/k"
        = Outcome.ok (FetchResult.descriptors
            (if kernel_or_ramdisk ImageType.KERNEL
             then [⟨some "kernel", none, some "/tmp/k"⟩]
             else [⟨some "kernel", some "/tmp/k", none⟩]))
       ∧ (ImageType.KERNEL ≠ ImageType.DISK_VHD →
           fetch_image "glance" fenv_ok ImageType.KERNEL 1024 16777216 [] [] "/tmp/k"
             = Outcome.ok (FetchResult.descriptors
                 (if kernel_or_ramdisk ImageType.KERNEL
                  then [⟨some "kernel", none, some fenv_ok.copy_kernel_result⟩]
                  else [⟨some "kernel", some fenv_ok.vdi_uuid, none⟩])))
       ∧ fetch_image "glance" fenv_ok ImageType.DISK_VHD 1024 16777216 []
           (⟨some "os", some "vhd-uuid", none⟩ :: []) "/tmp/k"
        = Outcome.ok (FetchResult.descriptors
            (⟨some "os", some "vhd-uuid", none⟩ :: []))
       ∧ fetch_image "glance" fenv_ok ImageType.DISK_VHD 1024 16777216 [] [] "/tmp/k"
        = Outcome.error (PyErr.indexError "list index out of range")
       ∧ fetch_image "objectstore" fenv_ok ImageType.DISK_VHD 1024 16777216 [] [] "/tmp/k"
        = Outcome.error (PyErr.attributeError "VHD_STR")) :=
  ⟨by decide, by decide, by decide, by decide, by decide, by decide,
    claim_C8_amended fenv_ok ImageType.KERNEL 1024 16777216 [] []
      ⟨some "os", some "vhd-uuid", none⟩ [] "/tmp/k" (some "kernel")
      (by decide) (by decide) (by decide) (by decide) (by decide) (by decide)⟩

/-- Counterexample for claim C9 as stated: the legacy partitioned-raw
type `DISK` is not decided by the bootloader probe — it is always
paravirtualized (empty trace, no caller-operation call, result `true`
even though the probe would say `false`) — while the non-partitioned
`DISK_RAW` type is not always paravirtualized: its result follows the
probe run through the scoped attachment. -/
theorem claim_C9_counterexample :
    _determine_is_pv_glance env_ok false ImageType.DISK "linux"
      = ([], Outcome.ok true)
    ∧ countOp (_determine_is_pv_glance env_ok false ImageType.DISK "linux").1 = 0
    ∧ (_determine_is_pv_glance env_ok false ImageType.DISK_RAW "linux").2
      = Outcome.ok false
    ∧ countOp (_determine_is_pv_glance env_ok false ImageType.DISK_RAW "linux").1 = 1 := by
  decide

/-- Claim C9 as amended: under the glance backend, `DISK_VHD` images are
paravirtualized unless the OS tag is `windows`; the non-partitioned
`DISK_RAW` images are decided by the pygrub bootloader probe run through
the scoped attachment (exactly one caller-operation call); the legacy
partitioned-raw `DISK` images are always paravirtualized; any other
classification fails with the unknown-image-format error. -/
theorem claim_C9_amended (env : AttachEnv) (probe : Bool) (os : String)
    (hplug : env.plug_failure = none)
    (hdev : remap_vbd_dev env.should_remap env.remap_new env.orig_dev = "autodetect"
            ∨ wait_for_device_ok env.device_appears_at env.wait_timeout = true)
    (hterm : (vbd_unplug_with_retry env.unplug_responses).2 ≠ UnplugResult.exhausted) :
    _determine_is_pv_glance env probe ImageType.DISK_VHD os
      = ([], Outcome.ok (if os = "windows" then false else true))
    ∧ _determine_is_pv_glance env probe ImageType.DISK os = ([], Outcome.ok true)
    ∧ (_determine_is_pv_glance env probe ImageType.DISK_RAW os).2 = Outcome.ok probe
    ∧ countOp (_determine_is_pv_glance env probe ImageType.DISK_RAW os).1 = 1
    ∧ _determine_is_pv_glance env probe ImageType.KERNEL os
      = ([], Outcome.error (PyErr.genError "Unknown image format"))
    ∧ _determine_is_pv_glance env probe ImageType.RAMDISK os
      = ([], Outcome.error (PyErr.genError "Unknown image format")) := by
  have hbody := with_vdi_eq env (fun _ => Except.ok probe) hterm
  rw [attach_body_success _ _ hplug hdev] at hbody
  refine ⟨rfl, rfl, ?_, ?_, rfl, rfl⟩
  · simp [_determine_is_pv_glance, hbody, liftExcept]
  · simp [_determine_is_pv_glance, hbody, countOp_append, unplug_countOp, countOp]

/-- Witness for the amended C9 at the fully successful mock. -/
theorem claim_C9_amended_witness :
    env_ok.plug_failure = none
    ∧ (remap_vbd_dev env_ok.should_remap env_ok.remap_new env_ok.orig_dev = "autodetect"
       ∨ wait_for_device_ok env_ok.device_appears_at env_ok.wait_timeout = true)
    ∧ (vbd_unplug_with_retry env_ok.unplug_responses).2 ≠ UnplugResult.exhausted
    ∧ (_determine_is_pv_glance env_ok true ImageType.DISK_VHD "linux"
        = ([], Outcome.ok (if "linux" = "windows" then false else true))
       ∧ _determine_is_pv_glance env_ok true ImageType.DISK "linux" = ([], Outcome.ok true)
       ∧ (_determine_is_pv_glance env_ok true ImageType.DISK_RAW "linux").2 = Outcome.ok true
       ∧ countOp (_determine_is_pv_glance env_ok true ImageType.DISK_RAW "linux").1 = 1
       ∧ _determine_is_pv_glance env_ok true ImageType.KERNEL "linux"
        = ([], Outcome.error (PyErr.genError "Unknown image format"))
       ∧ _determine_is_pv_glance env_ok true ImageType.RAMDISK "linux"
        = ([], Outcome.error (PyErr.genError "Unknown image format"))) :=
  ⟨by decide, by decide, by decide,
    claim_C9_amended env_ok true "linux" (by decide) (by decide) (by decide)⟩

/-- Claim C10: `ignore_failure` returns the wrapped result of the
computation when it does not raise, returns `None` when it raises a
hypervisor-API failure (`XenAPI.Failure`), and lets an exception of any
other type propagate to the caller. -/
theorem claim_C10_ignore_failure {α : Type} (a : α) (d : List String) (e : PyErr)
    (h : e.isXenFailure = false) :
    ignore_failure (Except.ok a) = Except.ok (some a)
    ∧ ignore_failure (Except.error (PyErr.xenFailure d) : Except PyErr α)
      = Except.ok none
    ∧ ignore_failure (Except.error e : Except PyErr α) = Except.error e := by
  refine ⟨rfl, rfl, ?_⟩
  cases e with
  | xenFailure ds => simp [PyErr.isXenFailure] at h
  | storageError m => rfl
  | genError m => rfl
  | ioError m => rfl
  | nameError n => rfl
  | attributeError n => rfl
  | indexError m => rfl

/-- Witness for C10 at a non-hypervisor exception. -/
theorem claim_C10_witness :
    (PyErr.genError "boom").isXenFailure = false
    ∧ (ignore_failure (Except.ok (0 : Nat)) = Except.ok (some 0)
       ∧ ignore_failure (Except.error (PyErr.xenFailure ["X"]) : Except PyErr Nat)
        = Except.ok none
       ∧ ignore_failure (Except.error (PyErr.genError "boom") : Except PyErr Nat)
        = Except.error (PyErr.genError "boom")) :=
  ⟨by decide, claim_C10_ignore_failure 0 ["X"] (PyErr.genError "boom") (by decide)⟩

end VmUtils
